import Mathlib

/-!
# Verification of the FastFood order-dialogue state machine

Shallow embedding of `src/agents/fastfood_agent.py`: the `AgentState`
record, the four graph nodes (`capture_order`, `handle_conversation`,
`confirm_order`, `register_order`), the two routing functions
(`check_capture`, `check_confirmation`), and the LangGraph edge structure,
together with theorems about the spec's claims.

Modelling conventions:
* The external completion capability (the LLM) is opaque: each model
  invocation's outcome enters a step function as an explicit
  `Except String String` argument (`.ok text` for a completion,
  `.error e` for a capability failure).  The step functions consume these
  arguments in the same order as the Python code awaits the calls, with
  no handler, so a failing call short-circuits the step exactly as an
  uncaught exception aborts the Python turn.
* `AgentState` is a `total=False` TypedDict in the source, so every
  non-`messages` field is an `Option` (`none` = key absent).  The two
  state-flag fields are `Option String` because the Python dict is
  dynamically typed: the `Literal` annotations do not restrict what a
  lookup can observe, and `check_confirmation` has a branch for values
  outside the annotation.
* A Python `raise` (the `ValueError` in `confirm_order`) and an uncaught
  completion failure are `Except.error` results of the step; the
  unguarded `state["confirm_order_state"]` lookup in `check_confirmation`
  is modelled by returning `none` (= `KeyError`) when the key is absent.
* The graph is a labelled transition relation `GStep` over
  (node, state) pairs, one constructor per edge registered on the
  `StateGraph`; `Reach` is its reflexive-transitive closure from the
  entry point `capture_order`.  `handle_conversation` has no outgoing
  edge in the source, so it has no constructor.
-/

/-- Error outcome of one graph step: the `ValueError` raised by
`confirm_order`, or an uncaught completion-capability failure. -/
inductive StepErr where
  | valueError (msg : String)
  | llmError (msg : String)
  deriving DecidableEq, Repr

/-- One transcript message: LangChain role-tagged message.  `meta` models
the `response_metadata` dict attached by `register_order` (its
`order_details.description` entry, itself optional because the code uses
`state.get("order_details")`). -/
structure Msg where
  role : String
  text : String
  meta : Option (Option String) := none
  deriving DecidableEq, Repr

/-- `AIMessage(text)` as appended by the nodes. -/
def aiMsg (t : String) : Msg := { role := "ai", text := t }

/-- The `AgentState` TypedDict (`total=False`): `messages` plus four
optional keys. -/
structure AgentState where
  messages : List Msg
  order_details : Option String := none
  user_response : Option String := none
  capture_order_state : Option String := none
  confirm_order_state : Option String := none
  deriving DecidableEq, Repr

deriving instance DecidableEq for Except

/-- Python `str.strip()`: drop whitespace from both ends (executable
character-list implementation, since `String.trim` does not reduce in
the kernel). -/
def pyStrip (s : String) : String :=
  String.mk (((s.data.dropWhile Char.isWhitespace).reverse.dropWhile Char.isWhitespace).reverse)

/-- Python `str.lower()`: lowercase every character. -/
def pyLower (s : String) : String := String.mk (s.data.map Char.toLower)

/-- Lift a completion-capability outcome into a step outcome: an
`.error` is the uncaught exception propagating out of the step. -/
def llmCall (r : Except String String) : Except StepErr String :=
  r.mapError StepErr.llmError

/-- Text of the `AIMessage` appended by `capture_order` on the
"complete" branch. -/
def captureSuccessText : String := "Detalhes do pedido capturados com sucesso!"

/-- Text of the `AIMessage` appended by `capture_order` on the
incomplete branch. -/
def captureIncompleteText : String :=
  "Parece que faltam alguns detalhes no seu pedido. Por favor, forneça mais informações."

/-- `capture_order(state, config)`.  `captureResp` is the outcome of the
order-extraction model call, `validationResp` of the completeness-check
call.  The code strips the first, strips+lowercases the second, then
branches on equality with `"complete"`. -/
def capture_order (s : AgentState) (captureResp validationResp : Except String String) :
    Except StepErr AgentState := do
  let order_details := pyStrip (← llmCall captureResp)
  let validation_result := pyLower (pyStrip (← llmCall validationResp))
  if validation_result = "complete" then
    pure { s with
      order_details := some order_details
      capture_order_state := some "order"
      messages := s.messages ++ [aiMsg captureSuccessText] }
  else
    pure { s with
      messages := s.messages ++ [aiMsg captureIncompleteText]
      capture_order_state := some "conversation" }

/-- `handle_conversation(state, config)`: one model call, appends the
stripped completion as an `AIMessage`, changes nothing else. -/
def handle_conversation (s : AgentState) (resp : Except String String) :
    Except StepErr AgentState := do
  let response_message := pyStrip (← llmCall resp)
  pure { s with messages := s.messages ++ [aiMsg response_message] }

/-- Message of the `ValueError` raised by `confirm_order` when
`"order_details" not in state`. -/
def missingOrderDetailsText : String := "Detalhes do pedido não estão definidos no estado."

/-- `confirm_order(state, config)`.  The precondition check
`"order_details" not in state` runs before either model call; then the
confirmation-presentation call (`confirmResp`) whose stripped text is
appended, then the intent-classification call (`intentResp`) whose
stripped, lowercased text selects the `confirm_order_state` update
(`"confirm"` / `"change"` / otherwise leave the key as it is). -/
def confirm_order (s : AgentState) (confirmResp intentResp : Except String String) :
    Except StepErr AgentState :=
  if s.order_details.isNone then
    Except.error (StepErr.valueError missingOrderDetailsText)
  else do
    let confirm_message := pyStrip (← llmCall confirmResp)
    let s1 := { s with messages := s.messages ++ [aiMsg confirm_message] }
    let intent := pyLower (pyStrip (← llmCall intentResp))
    if intent = "confirm" then
      pure { s1 with confirm_order_state := some "confirmed" }
    else if intent = "change" then
      pure { s1 with confirm_order_state := some "redirect_to_capture" }
    else
      pure s1

/-- Text of the final message emitted by `register_order` (a constant in
the source). -/
def registerFinalText : String :=
  "✅ Pedido registrado com sucesso!\n" ++
  "Agradecemos sua preferência! Seu pedido já está a caminho. 🚚\n" ++
  "Se quiser fazer outro pedido, é só mandar uma mensagem aqui no chat!"

/-- `register_order(state, config)`: no model call, no failure path;
appends the constant final message carrying
`response_metadata.order_details.description = state.get("order_details")`. -/
def register_order (s : AgentState) : AgentState :=
  { s with messages := s.messages ++
      [{ role := "ai", text := registerFinalText, meta := some s.order_details }] }

/-- `check_confirmation(state)`: unguarded `state["confirm_order_state"]`
lookup — `none` models the `KeyError` when the key is absent.  Otherwise
the three-way branch of the source, whose final `else` returns
`"confirm_order"`. -/
def check_confirmation (s : AgentState) : Option String :=
  match s.confirm_order_state with
  | none => none
  | some v =>
    if v = "confirmed" then some "register_order"
    else if v = "redirect_to_capture" then some "capture_order"
    else some "confirm_order"

/-- `check_capture(state)`: guarded `state.get("capture_order_state")`
lookups; if no branch matches the Python function falls through and
returns `None`, which LangGraph rejects — modelled as `none`.  The
`END` sentinel is modelled as the string `"END"`. -/
def check_capture (s : AgentState) : Option String :=
  if s.capture_order_state = some "order" then some "confirm_order"
  else if s.capture_order_state = some "conversation" then some "handle_conversation"
  else if s.capture_order_state = some "end" then some "END"
  else none

/-- The named graph nodes, plus the `END` sentinel. -/
inductive GNode where
  | capture_order
  | handle_conversation
  | confirm_order
  | register_order
  | terminal
  deriving DecidableEq, Repr

/-- The conditional-edge mapping registered for `capture_order`
(`add_conditional_edges` dict): router string → destination node. -/
def captureEdgeMap (r : String) : Option GNode :=
  if r = "confirm_order" then some GNode.confirm_order
  else if r = "handle_conversation" then some GNode.handle_conversation
  else if r = "END" then some GNode.terminal
  else none

/-- The conditional-edge mapping registered for `confirm_order`. -/
def confirmEdgeMap (r : String) : Option GNode :=
  if r = "register_order" then some GNode.register_order
  else if r = "capture_order" then some GNode.capture_order
  else if r = "confirm_order" then some GNode.confirm_order
  else none

/-- Destination selected after running `capture_order` on result state
`s`: router then edge dict; `none` aborts the turn. -/
def captureRoute (s : AgentState) : Option GNode :=
  (check_capture s).bind captureEdgeMap

/-- Destination selected after running `confirm_order` on result state
`s`: router then edge dict; `none` aborts the turn. -/
def confirmRoute (s : AgentState) : Option GNode :=
  (check_confirmation s).bind confirmEdgeMap

/-- One successful graph transition: run the node at the current
position (with some completion outcomes), then follow the edge
registered on the `StateGraph`.  `capture_order` and `confirm_order`
have conditional edges; `register_order` has the fixed edge
`add_edge("register_order", END)`.  `handle_conversation` has no
outgoing edge in the source, hence no constructor. -/
inductive GStep : GNode × AgentState → GNode × AgentState → Prop where
  | capture (s s' : AgentState) (r v : Except String String) (n : GNode) :
      capture_order s r v = Except.ok s' →
      captureRoute s' = some n →
      GStep (GNode.capture_order, s) (n, s')
  | confirm (s s' : AgentState) (r i : Except String String) (n : GNode) :
      confirm_order s r i = Except.ok s' →
      confirmRoute s' = some n →
      GStep (GNode.confirm_order, s) (n, s')
  | register (s : AgentState) :
      GStep (GNode.register_order, s) (GNode.terminal, register_order s)

/-- Execution traces: reflexive-transitive closure of `GStep`. -/
def Reach : GNode × AgentState → GNode × AgentState → Prop :=
  Relation.ReflTransGen GStep

/-! ## Helper lemmas on the routing functions -/

/-- The conditional edges of `capture_order` never lead to
`register_order`. -/
theorem captureRoute_ne_register (s : AgentState) :
    captureRoute s ≠ some GNode.register_order := by
  unfold captureRoute check_capture
  split
  · simp [captureEdgeMap]
  · split
    · simp [captureEdgeMap]
    · split <;> simp [captureEdgeMap]

/-- The conditional edge of `confirm_order` reaches `register_order`
only when `confirm_order_state = "confirmed"`. -/
theorem confirmRoute_register (s : AgentState)
    (h : confirmRoute s = some GNode.register_order) :
    s.confirm_order_state = some "confirmed" := by
  unfold confirmRoute check_confirmation at h
  cases hc : s.confirm_order_state with
  | none => rw [hc] at h; simp at h
  | some v =>
    rw [hc] at h
    by_cases h1 : v = "confirmed"
    · rw [h1]
    · by_cases h2 : v = "redirect_to_capture" <;>
        simp [h1, h2, confirmEdgeMap] at h

/-! ## C1 -/

/-- C1: For every session, the Register step is reachable only through a
path on which the confirmation flag is true: the only edge into
`register_order` is the conditional edge from `confirm_order`, taken
exactly when `confirm_order_state = "confirmed"`; no execution trace of
the graph ends in Register with confirmation false. -/
theorem register_only_reachable_confirmed
    (s0 : AgentState) (p : GNode × AgentState)
    (h : Reach (GNode.capture_order, s0) p)
    (hreg : p.1 = GNode.register_order) :
    p.2.confirm_order_state = some "confirmed" := by
  induction h with
  | refl => simp at hreg
  | tail _ hstep ih =>
    rename_i b c _
    cases hstep with
    | capture s s' r v n hrun hroute =>
      exact absurd (hreg ▸ hroute) (captureRoute_ne_register s')
    | confirm s s' r i n hrun hroute =>
      exact confirmRoute_register s' (hreg ▸ hroute)
    | register s => simp at hreg

/-- Initial session state for concrete traces: empty transcript, no keys
set. -/
def wit0 : AgentState := { messages := [] }

/-- State after `capture_order` on `wit0` with completion "1 pizza
grande" and validation "complete". -/
def wit1 : AgentState :=
  { messages := [aiMsg captureSuccessText]
    order_details := some "1 pizza grande"
    capture_order_state := some "order" }

/-- State after `confirm_order` on `wit1` with confirmation message
"Confirma o pedido?" and intent completion "confirm". -/
def wit2 : AgentState :=
  { messages := [aiMsg captureSuccessText, aiMsg "Confirma o pedido?"]
    order_details := some "1 pizza grande"
    capture_order_state := some "order"
    confirm_order_state := some "confirmed" }

/-- A concrete execution trace of the graph from the entry point that
reaches `register_order`. -/
theorem wit_reach_register :
    Reach (GNode.capture_order, wit0) (GNode.register_order, wit2) :=
  Relation.ReflTransGen.head
    (GStep.capture wit0 wit1 (Except.ok "1 pizza grande") (Except.ok "complete")
      GNode.confirm_order (by decide) (by decide))
    (Relation.ReflTransGen.single
      (GStep.confirm wit1 wit2 (Except.ok "Confirma o pedido?") (Except.ok "confirm")
        GNode.register_order (by decide) (by decide)))

/-- Witness for C1 at a concrete trace. -/
theorem register_only_reachable_confirmed_witness :
    wit2.confirm_order_state = some "confirmed" :=
  register_only_reachable_confirmed wit0 (GNode.register_order, wit2)
    wit_reach_register rfl

/-! ## C2 -/

/-- C2: Running `confirm_order` on a session state that has no captured
order summary (no `order_details` key) raises the fatal `ValueError`
that aborts the turn.  The result is the same for every
completion-capability outcome (even failing ones), showing the error is
raised before any model call is made, any message appended, or any flag
set: the error result carries no mutated state. -/
theorem confirm_order_missing_summary_fatal
    (s : AgentState) (r i : Except String String)
    (h : s.order_details = none) :
    confirm_order s r i = Except.error (StepErr.valueError missingOrderDetailsText) := by
  simp [confirm_order, h]

/-- Witness for C2: a concrete session with no `order_details` key. -/
theorem confirm_order_missing_summary_fatal_witness :
    confirm_order { messages := [aiMsg "oi"] } (Except.ok "a") (Except.ok "b") =
      Except.error (StepErr.valueError missingOrderDetailsText) :=
  confirm_order_missing_summary_fatal { messages := [aiMsg "oi"] }
    (Except.ok "a") (Except.ok "b") rfl

/-! ## C3 -/

/-- Result state of the C3 counterexample run. -/
def cx3After : AgentState :=
  { messages := [aiMsg captureIncompleteText]
    capture_order_state := some "conversation" }

/-- C3 counterexample: on an empty session whose validation completion
is "incomplete", `capture_order` succeeds but the router sends the
session to `handle_conversation`, not back to `capture_order` — the
claim that the router re-enters `capture_order` fails at this concrete
input. -/
theorem capture_incomplete_not_reenter_capture :
    capture_order { messages := [] } (Except.ok "quero fazer um pedido")
        (Except.ok "incomplete") = Except.ok cx3After ∧
    captureRoute cx3After = some GNode.handle_conversation ∧
    captureRoute cx3After ≠ some GNode.capture_order := by decide

/-- C3 amended: for every session whose validation completion is
classified incomplete (not "complete" after strip+lower), after the
step `capture_order_state = "conversation"`, the router sends the
session to `handle_conversation` (which has no outgoing edge), and the
session never advances to `confirm_order`. -/
theorem capture_incomplete_never_advances
    (s s' : AgentState) (r v : String)
    (hv : pyLower (pyStrip v) ≠ "complete")
    (h : capture_order s (Except.ok r) (Except.ok v) = Except.ok s') :
    s'.capture_order_state = some "conversation" ∧
    captureRoute s' = some GNode.handle_conversation ∧
    check_capture s' ≠ some "confirm_order" := by
  simp [capture_order, llmCall, Except.mapError, Bind.bind, Except.bind,
    Pure.pure, Except.pure, hv] at h
  subst h
  refine ⟨rfl, ?_, ?_⟩ <;> simp [captureRoute, check_capture, captureEdgeMap]

/-- Witness for the amended C3 at a concrete incomplete session. -/
theorem capture_incomplete_never_advances_witness :
    cx3After.capture_order_state = some "conversation" ∧
    captureRoute cx3After = some GNode.handle_conversation ∧
    check_capture cx3After ≠ some "confirm_order" :=
  capture_incomplete_never_advances { messages := [] } cx3After
    "quero fazer um pedido" "incomplete" (by decide) (by decide)

/-! ## C4 -/

/-- C4: At Confirm, the classified reply drives the routing: a reply
classified "confirm" sets `confirm_order_state = "confirmed"` and
`check_confirmation` routes to `register_order`; a reply classified
"change" sets `confirm_order_state = "redirect_to_capture"` (not
confirmed) and routes back to `capture_order`, and the captured
`order_details` is preserved by the step. -/
theorem confirm_intent_drives_routing
    (s : AgentState) (d r i : String)
    (hd : s.order_details = some d) :
    (∀ s', pyLower (pyStrip i) = "confirm" →
      confirm_order s (Except.ok r) (Except.ok i) = Except.ok s' →
      s'.confirm_order_state = some "confirmed" ∧
      confirmRoute s' = some GNode.register_order) ∧
    (∀ s', pyLower (pyStrip i) = "change" →
      confirm_order s (Except.ok r) (Except.ok i) = Except.ok s' →
      s'.confirm_order_state = some "redirect_to_capture" ∧
      confirmRoute s' = some GNode.capture_order ∧
      s'.order_details = some d) := by
  constructor
  · intro s' hi h
    simp [confirm_order, hd, llmCall, Except.mapError, Bind.bind, Except.bind,
      Pure.pure, Except.pure, hi] at h
    subst h
    exact ⟨rfl, by simp [confirmRoute, check_confirmation, confirmEdgeMap]⟩
  · intro s' hi h
    simp [confirm_order, hd, llmCall, Except.mapError, Bind.bind, Except.bind,
      Pure.pure, Except.pure, hi] at h
    subst h
    exact ⟨rfl, by simp [confirmRoute, check_confirmation, confirmEdgeMap], rfl⟩

/-- State after a "change" reply at Confirm on `wit1`. -/
def wit4change : AgentState :=
  { messages := [aiMsg captureSuccessText, aiMsg "Confirma o pedido?"]
    order_details := some "1 pizza grande"
    capture_order_state := some "order"
    confirm_order_state := some "redirect_to_capture" }

/-- Witness for C4: both intents exercised at concrete sessions. -/
theorem confirm_intent_drives_routing_witness :
    (wit2.confirm_order_state = some "confirmed" ∧
      confirmRoute wit2 = some GNode.register_order) ∧
    (wit4change.confirm_order_state = some "redirect_to_capture" ∧
      confirmRoute wit4change = some GNode.capture_order ∧
      wit4change.order_details = some "1 pizza grande") :=
  ⟨(confirm_intent_drives_routing wit1 "1 pizza grande" "Confirma o pedido?"
      "confirm" rfl).1 wit2 (by decide) (by decide),
   (confirm_intent_drives_routing wit1 "1 pizza grande" "Confirma o pedido?"
      "change" rfl).2 wit4change (by decide) (by decide)⟩

/-! ## C5 -/

/-- Session at Confirm with a captured summary but no
`confirm_order_state` key (the first visit to Confirm). -/
def cx5Before : AgentState :=
  { messages := [aiMsg captureSuccessText]
    order_details := some "1 pizza"
    capture_order_state := some "order" }

/-- Result of `confirm_order` on `cx5Before` with the unrecognized
reply classification "talvez". -/
def cx5After : AgentState :=
  { messages := [aiMsg captureSuccessText, aiMsg "Confirma?"]
    order_details := some "1 pizza"
    capture_order_state := some "order" }

/-- C5, evaluated at the failing input: with an unrecognized intent
("talvez") on a first visit to Confirm, `confirm_order` leaves the
`confirm_order_state` key absent, and the subsequent
`check_confirmation` router hits the unguarded
`state["confirm_order_state"]` lookup and fails with a `KeyError`
(modelled as `none`) — the turn aborts instead of re-entering Confirm
with a clarification. -/
theorem unrecognized_reply_crashes_at_confirm :
    confirm_order cx5Before (Except.ok "Confirma?") (Except.ok "talvez") =
      Except.ok cx5After ∧
    cx5After.confirm_order_state = none ∧
    check_confirmation cx5After = none ∧
    confirmRoute cx5After = none := by decide

/-! ## C9 -/

/-- C9: If `confirm_order` completes with a detected intent that is
neither "confirm" nor "change" and `confirm_order_state` was never set
earlier in the session, the step leaves the key absent and
`check_confirmation`'s unguarded `state["confirm_order_state"]` lookup
fails (`none` = `KeyError`, a partial lookup), instead of gracefully
re-entering Confirm. -/
theorem unclear_intent_unguarded_lookup_fails
    (s s' : AgentState) (d r i : String)
    (hd : s.order_details = some d)
    (hflag : s.confirm_order_state = none)
    (hi1 : pyLower (pyStrip i) ≠ "confirm")
    (hi2 : pyLower (pyStrip i) ≠ "change")
    (h : confirm_order s (Except.ok r) (Except.ok i) = Except.ok s') :
    s'.confirm_order_state = none ∧ check_confirmation s' = none := by
  simp [confirm_order, hd, llmCall, Except.mapError, Bind.bind, Except.bind,
    Pure.pure, Except.pure, hi1, hi2] at h
  subst h
  exact ⟨hflag, by simp [check_confirmation, hflag]⟩

/-- Witness for C9 at the concrete "talvez" session. -/
theorem unclear_intent_unguarded_lookup_fails_witness :
    cx5After.confirm_order_state = none ∧ check_confirmation cx5After = none :=
  unclear_intent_unguarded_lookup_fails cx5Before cx5After "1 pizza"
    "Confirma?" "talvez" rfl rfl (by decide) (by decide) (by decide)

/-! ## C6 -/

/-- C6 counterexample: the final message of `register_order` is the one
fixed constant text for every session — identical at two sessions with
different captured orders — and that text contains no digit and no
fragment of the captured order, so it contains no non-empty order
identifier.  The claim that the final message text contains an order
identifier fails at these concrete inputs. -/
theorem register_message_no_order_identifier :
    ((register_order { messages := [], order_details := some "2 pizzas" }).messages.map
        Msg.text = [registerFinalText]) ∧
    ((register_order { messages := [], order_details := some "1 suco" }).messages.map
        Msg.text = [registerFinalText]) ∧
    (some "2 pizzas" : Option String) ≠ some "1 suco" ∧
    registerFinalText.data.all (fun c => !c.isDigit) = true := by decide

/-- C6 amended: `register_order` emits exactly one final confirmation
message whose text is the fixed non-empty constant `registerFinalText`
(no order identifier; the captured order details travel only in the
message metadata), and Register is terminal: its only transition is the
unconditional edge to END, and no transition leaves END. -/
theorem register_emits_final_message_and_is_terminal (s : AgentState) :
    (register_order s).messages = s.messages ++
      [{ role := "ai", text := registerFinalText, meta := some s.order_details }] ∧
    registerFinalText ≠ "" ∧
    (∀ p, GStep (GNode.register_order, s) p ↔ p = (GNode.terminal, register_order s)) ∧
    (∀ q, ¬ GStep (GNode.terminal, register_order s) q) := by
  refine ⟨rfl, by decide, fun p => ⟨fun h => ?_, fun h => ?_⟩, fun q h => ?_⟩
  · cases h; rfl
  · subst h; exact GStep.register s
  · cases h

/-- Witness for the amended C6 at a concrete registered session. -/
theorem register_emits_final_message_and_is_terminal_witness :
    (register_order wit2).messages = wit2.messages ++
      [{ role := "ai", text := registerFinalText, meta := some wit2.order_details }] ∧
    ¬ GStep (GNode.terminal, register_order wit2) (GNode.capture_order, wit2) :=
  ⟨(register_emits_final_message_and_is_terminal wit2).1,
   (register_emits_final_message_and_is_terminal wit2).2.2.2 (GNode.capture_order, wit2)⟩

/-! ## C7 -/

/-- C7 counterexample (negation of the claim's existential part): no
execution of `capture_order` — whatever the session state and whatever
the two completion outcomes — ever produces the "end" classification:
the step only ever writes "order" or "conversation" into
`capture_order_state`. -/
theorem capture_never_classifies_end :
    ¬ ∃ (s s' : AgentState) (r v : Except String String),
        capture_order s r v = Except.ok s' ∧
        s'.capture_order_state = some "end" := by
  rintro ⟨s, s', r, v, h, hend⟩
  cases r with
  | error e =>
    simp [capture_order, llmCall, Except.mapError, Bind.bind, Except.bind] at h
  | ok rr =>
    cases v with
    | error e =>
      simp [capture_order, llmCall, Except.mapError, Bind.bind, Except.bind] at h
    | ok vv =>
      by_cases hv : pyLower (pyStrip vv) = "complete" <;>
        simp [capture_order, llmCall, Except.mapError, Bind.bind, Except.bind,
          Pure.pure, Except.pure, hv] at h <;>
      subst h <;> simp at hend

/-- C7 amended: `check_capture` does route the "end" classification to
the END sentinel (and the conditional-edge mapping sends it to the
terminal node), but the Capture step never actually produces that
classification: every successful `capture_order` run sets
`capture_order_state` to "order" or "conversation", so the END branch
is dead code with respect to the Capture step's own outputs. -/
theorem check_capture_end_branch_dead
    (s s' : AgentState) (r v : Except String String)
    (h : capture_order s r v = Except.ok s') :
    (∀ t : AgentState, t.capture_order_state = some "end" →
      check_capture t = some "END" ∧ captureRoute t = some GNode.terminal) ∧
    (s'.capture_order_state = some "order" ∨
      s'.capture_order_state = some "conversation") := by
  constructor
  · intro t ht
    constructor <;> simp [check_capture, captureRoute, captureEdgeMap, ht]
  · cases r with
    | error e =>
      simp [capture_order, llmCall, Except.mapError, Bind.bind, Except.bind] at h
    | ok rr =>
      cases v with
      | error e =>
        simp [capture_order, llmCall, Except.mapError, Bind.bind, Except.bind] at h
      | ok vv =>
        by_cases hv : pyLower (pyStrip vv) = "complete" <;>
          simp [capture_order, llmCall, Except.mapError, Bind.bind, Except.bind,
            Pure.pure, Except.pure, hv] at h <;>
        subst h
        · exact Or.inl rfl
        · exact Or.inr rfl

/-- Witness for the amended C7 at a concrete session. -/
theorem check_capture_end_branch_dead_witness :
    (check_capture { messages := [], capture_order_state := some "end" } = some "END") ∧
    (wit1.capture_order_state = some "order" ∨
      wit1.capture_order_state = some "conversation") :=
  ⟨((check_capture_end_branch_dead wit0 wit1 (Except.ok "1 pizza grande")
      (Except.ok "complete") (by decide)).1
      { messages := [], capture_order_state := some "end" } rfl).1,
   (check_capture_end_branch_dead wit0 wit1 (Except.ok "1 pizza grande")
      (Except.ok "complete") (by decide)).2⟩

/-! ## C8 -/

/-- C8: the core never retries on completion-capability failure: a
failing model call inside `capture_order`, `handle_conversation`, or
`confirm_order` — at whichever position in the step it occurs —
propagates unchanged out of the step as an error, aborting the turn
(there is no catch/retry anywhere in the step functions). -/
theorem completion_failure_aborts_turn
    (s : AgentState) (d e r : String) (x : Except String String)
    (hd : s.order_details = some d) :
    capture_order s (Except.error e) x = Except.error (StepErr.llmError e) ∧
    capture_order s (Except.ok r) (Except.error e) = Except.error (StepErr.llmError e) ∧
    handle_conversation s (Except.error e) = Except.error (StepErr.llmError e) ∧
    confirm_order s (Except.error e) x = Except.error (StepErr.llmError e) ∧
    confirm_order s (Except.ok r) (Except.error e) = Except.error (StepErr.llmError e) := by
  refine ⟨?_, ?_, ?_, ?_, ?_⟩ <;>
    simp [capture_order, handle_conversation, confirm_order, hd, llmCall,
      Except.mapError, Bind.bind, Except.bind]

/-- Witness for C8 at a concrete session and failure. -/
theorem completion_failure_aborts_turn_witness :
    capture_order wit1 (Except.error "timeout") (Except.ok "complete") =
      Except.error (StepErr.llmError "timeout") ∧
    handle_conversation wit1 (Except.error "timeout") =
      Except.error (StepErr.llmError "timeout") ∧
    confirm_order wit1 (Except.ok "Confirma?") (Except.error "timeout") =
      Except.error (StepErr.llmError "timeout") :=
  ⟨(completion_failure_aborts_turn wit1 "1 pizza grande" "timeout" "Confirma?"
      (Except.ok "complete") rfl).1,
   (completion_failure_aborts_turn wit1 "1 pizza grande" "timeout" "Confirma?"
      (Except.ok "complete") rfl).2.2.1,
   (completion_failure_aborts_turn wit1 "1 pizza grande" "timeout" "Confirma?"
      (Except.ok "complete") rfl).2.2.2.2⟩

/-! ## C10 -/

/-- C10: `handle_conversation` appends exactly one assistant message
(the stripped completion) to the transcript and leaves every other
session field unchanged: `order_details`, `user_response`,
`capture_order_state` and `confirm_order_state` are the same before and
after the step. -/
theorem handle_conversation_frame
    (s s' : AgentState) (r : String)
    (h : handle_conversation s (Except.ok r) = Except.ok s') :
    s'.messages = s.messages ++ [aiMsg (pyStrip r)] ∧
    s'.order_details = s.order_details ∧
    s'.user_response = s.user_response ∧
    s'.capture_order_state = s.capture_order_state ∧
    s'.confirm_order_state = s.confirm_order_state := by
  simp [handle_conversation, llmCall, Except.mapError, Bind.bind, Except.bind,
    Pure.pure, Except.pure] at h
  subst h
  exact ⟨rfl, rfl, rfl, rfl, rfl⟩

/-- Witness for C10 at a concrete session. -/
theorem handle_conversation_frame_witness :
    ({ messages := [aiMsg "Temos pizza e suco."], order_details := none,
       user_response := none, capture_order_state := some "conversation",
       confirm_order_state := none } : AgentState).messages =
      ([] : List Msg) ++ [aiMsg (pyStrip "Temos pizza e suco.")] :=
  (handle_conversation_frame
    { messages := [], capture_order_state := some "conversation" }
    { messages := [aiMsg "Temos pizza e suco."],
      capture_order_state := some "conversation" }
    "Temos pizza e suco." (by decide)).1
